import Mathlib

/-!
Verification development for the playwright-palette-api repository.

The TypeScript sources are shallowly embedded as executable Lean
definitions.  JavaScript strings are modelled as Lean strings (lists of
characters), JavaScript numbers appearing in the color pipeline are
natural numbers (all arithmetic in the sources stays in small
non-negative integer ranges, except where noted), promises and thrown
exceptions are modelled with explicit outcome types, and the browser
environment (navigation results, swatch counts, per-attempt dialog
reads) is a parameter of each embedded function.

The repository carries two generations of the automation class: the
current one in src/lib/ColorPaletteAutomation/ColorPaletteAutomation.ts
(parallel contexts under one browser) and a legacy one (one browser per
mode).  The current definitions live at top level; the legacy ones live
in the Legacy namespace.
-/

/-- The HSL record passed between the color helpers
(h in degrees, s and l in percent). -/
structure HSL where
  h : Nat
  s : Nat
  l : Nat
deriving DecidableEq

/-- Hex digit character for a value below 16 (uppercase). -/
def hexDigitChar (n : Nat) : Char :=
  if n < 10 then Char.ofNat (48 + n) else Char.ofNat (55 + n)

/-- Two-character uppercase hex rendering of a byte. -/
def hexPair (n : Nat) : List Char :=
  [hexDigitChar (n / 16 % 16), hexDigitChar (n % 16)]

/-- Modelled from the spec: the hslToHex conversion primitive from
src/lib/utils/color/colorConverters.ts, which is not part of the given
sources.  The spec treats the hex/HSL converters as pure total functions
with a fixed contract (standard HSL to RGB conversion, rounded at the
converter boundary, rendered as an uppercase #RRGGBB string).  All
fractional arithmetic is carried out over a common denominator of
600000 so that the function is exact integer arithmetic. -/
def hslToHex (c : HSL) : String :=
  let h := c.h % 360
  let s := min c.s 100
  let l := min c.l 100
  let chroma := (100 - Nat.dist (2 * l) 100) * s
  let x := chroma * (60 - Nat.dist (h % 120) 60)
  let cFull := chroma * 60
  let m := 6000 * l - 30 * chroma
  let sector := h / 60
  let rgb : Nat × Nat × Nat :=
    if sector = 0 then (cFull, x, 0)
    else if sector = 1 then (x, cFull, 0)
    else if sector = 2 then (0, cFull, x)
    else if sector = 3 then (0, x, cFull)
    else if sector = 4 then (x, 0, cFull)
    else (cFull, 0, x)
  let byte := fun (v : Nat) => (2 * 255 * (v + m) + 600000) / 1200000
  String.mk ('#' :: (hexPair (byte rgb.1) ++ hexPair (byte rgb.2.1) ++ hexPair (byte rgb.2.2)))

/-- Numeric value of a hex digit character (0 for non-hex input). -/
def hexDigitVal (ch : Char) : Nat :=
  if 48 ≤ ch.toNat ∧ ch.toNat ≤ 57 then ch.toNat - 48
  else if 65 ≤ ch.toNat ∧ ch.toNat ≤ 70 then ch.toNat - 55
  else if 97 ≤ ch.toNat ∧ ch.toNat ≤ 102 then ch.toNat - 87
  else 0

/-- Modelled from the spec: the hexToHSL conversion primitive from
src/lib/utils/color/colorConverters.ts, which is not part of the given
sources.  Standard RGB to HSL conversion with results rounded to whole
degrees/percent; the hue is always reduced modulo 360. -/
def hexToHSL (str : String) : HSL :=
  let digits :=
    match str.data with
    | '#' :: rest => rest
    | other => other
  match digits with
  | [r1, r2, g1, g2, b1, b2] =>
    let r := 16 * hexDigitVal r1 + hexDigitVal r2
    let g := 16 * hexDigitVal g1 + hexDigitVal g2
    let b := 16 * hexDigitVal b1 + hexDigitVal b2
    let maxv := max r (max g b)
    let minv := min r (min g b)
    let d := maxv - minv
    let sum := maxv + minv
    let l := (200 * sum + 510) / 1020
    if d = 0 then ⟨0, 0, l⟩
    else
      let denom := 255 - Nat.dist sum 255
      let s := (200 * d + denom) / (2 * denom)
      let num : Int :=
        if maxv = r then 60 * ((g : Int) - (b : Int))
        else if maxv = g then 60 * ((b : Int) - (r : Int)) + 120 * (d : Int)
        else 60 * ((r : Int) - (g : Int)) + 240 * (d : Int)
      let hue := (((2 * (num + 360 * (d : Int)) + (d : Int)) / (2 * (d : Int))).toNat) % 360
      ⟨hue, s, l⟩
  | _ => ⟨0, 0, 0⟩

/-- Modelled from the spec: the hexToHSLString display helper from
src/lib/utils/color/colorConverters.ts (not among the given sources);
it renders the HSL mirror of a hex step as a derived display string. -/
def hexToHSLString (hex : String) : String :=
  let c := hexToHSL hex
  "hsl(" ++ Nat.repr c.h ++ ", " ++ Nat.repr c.s ++ "%, " ++ Nat.repr c.l ++ "%)"

/-- The four-color output record of AdvancedColorTheory
(src/lib/ColorTheory.ts, given as compiled JS). -/
structure TheoryPalette where
  accent : String
  gray : String
  lightBg : String
  darkBg : String
deriving DecidableEq

/-- The harmony scheme enum from src/types/types.ts. -/
inductive Scheme where
  | analogous
  | complementary
  | triadic
  | monochromatic
deriving DecidableEq

namespace AdvancedColorTheory

/-- AdvancedColorTheory.generateAnalogous from the ColorTheory source. -/
def generateAnalogous (baseHSL : HSL) : TheoryPalette :=
  { accent := hslToHex ⟨baseHSL.h, max 70 baseHSL.s, 55⟩
    gray := hslToHex ⟨(baseHSL.h + 30) % 360, 8, 50⟩
    lightBg := hslToHex ⟨(baseHSL.h + 15) % 360, 20, 98⟩
    darkBg := hslToHex ⟨(baseHSL.h + 15) % 360, 15, 8⟩ }

/-- AdvancedColorTheory.generateComplementary from the ColorTheory source. -/
def generateComplementary (baseHSL : HSL) : TheoryPalette :=
  { accent := hslToHex ⟨baseHSL.h, max 80 baseHSL.s, 55⟩
    gray := hslToHex ⟨(baseHSL.h + 180) % 360, 6, 50⟩
    lightBg := hslToHex ⟨baseHSL.h, 25, 98⟩
    darkBg := hslToHex ⟨(baseHSL.h + 180) % 360, 20, 8⟩ }

/-- AdvancedColorTheory.generateTriadic from the ColorTheory source. -/
def generateTriadic (baseHSL : HSL) : TheoryPalette :=
  { accent := hslToHex ⟨baseHSL.h, max 75 baseHSL.s, 55⟩
    gray := hslToHex ⟨(baseHSL.h + 120) % 360, 10, 50⟩
    lightBg := hslToHex ⟨(baseHSL.h + 240) % 360, 15, 98⟩
    darkBg := hslToHex ⟨(baseHSL.h + 240) % 360, 12, 8⟩ }

/-- AdvancedColorTheory.generateMonochromatic from the ColorTheory source. -/
def generateMonochromatic (baseHSL : HSL) : TheoryPalette :=
  { accent := hslToHex ⟨baseHSL.h, max 85 baseHSL.s, 55⟩
    gray := hslToHex ⟨baseHSL.h, 5, 50⟩
    lightBg := hslToHex ⟨baseHSL.h, 20, 98⟩
    darkBg := hslToHex ⟨baseHSL.h, 15, 8⟩ }

/-- AdvancedColorTheory.generateHarmoniousPalette: dispatch on the scheme
(the default switch branch coincides with the analogous case). -/
def generateHarmoniousPalette (baseColor : String) (scheme : Scheme) : TheoryPalette :=
  let hsl := hexToHSL baseColor
  match scheme with
  | .analogous => generateAnalogous hsl
  | .complementary => generateComplementary hsl
  | .triadic => generateTriadic hsl
  | .monochromatic => generateMonochromatic hsl

end AdvancedColorTheory

/-- JavaScript String.prototype.trim on the character list of a string. -/
def jsTrim (l : List Char) : List Char :=
  ((l.dropWhile Char.isWhitespace).reverse.dropWhile Char.isWhitespace).reverse

/-- JavaScript .replace with an anchored one-hash pattern: removes a single
leading hash character if present. -/
def jsStripHash : List Char → List Char
  | '#' :: rest => rest
  | l => l

/-- Uppercase hex digit test, one character of the [0-9A-F] class. -/
def isUpperHexDigit (c : Char) : Bool :=
  (48 ≤ c.toNat && c.toNat ≤ 57) || (65 ≤ c.toNat && c.toNat ≤ 70)

/-- The anchored six-digit test of the normalizer (applied after the
input has been uppercased). -/
def isHex6 (l : List Char) : Bool :=
  l.length = 6 && l.all isUpperHexDigit

/-- The anchored three-digit test of the normalizer. -/
def isHex3 (l : List Char) : Bool :=
  l.length = 3 && l.all isUpperHexDigit

/-- The digit-by-digit expansion of a three-digit shorthand
(destructuring of cleaned.split in the source; the test guarding the
call guarantees the three-element shape). -/
def expand3 : List Char → List Char
  | [r, g, b] => [r, r, g, g, b, b]
  | _ => []

/-- The raw.trim().replace(hash-anchor).toUpperCase() cleaning pipeline
shared by the normalizer and the validator. -/
def cleanedOf (s : String) : List Char :=
  (jsStripHash (jsTrim s.data)).map Char.toUpper

/-- The inner normalize closure of generateBaseColors
(ColorPaletteAutomation.ts): trim, strip one leading hash, uppercase,
then accept a 6-digit form verbatim or expand a 3-digit form; every
other input (including an absent or empty one, both falsy) yields no
value. -/
def normalizeSeed (raw : Option String) : Option String :=
  match raw with
  | none => none
  | some s =>
    if s = "" then none
    else if isHex6 (cleanedOf s) then some (String.mk ('#' :: cleanedOf s))
    else if isHex3 (cleanedOf s) then some (String.mk ('#' :: expand3 (cleanedOf s)))
    else none

/-- The seed actually used by generateBaseColors: the normalized input,
or the fixed default blue when normalization yields nothing. -/
def seedOf (brandColor : Option String) : String :=
  (normalizeSeed brandColor).getD "#3B82F6"

/-- The output record of generateBaseColors. -/
structure BaseColors where
  accent : String
  gray : String
  lightBackground : String
  darkBackground : String
deriving DecidableEq

/-- ColorPaletteAutomation.generateBaseColors (current source): normalize
or default the seed, run the harmony generator, and pass the raw seed
through as the accent unless the harmonized option is set. -/
def generateBaseColors (brandColor : Option String) (scheme : Scheme)
    (harmonized : Option Bool) : BaseColors :=
  let useHarmonized := harmonized.getD false
  let seed := seedOf brandColor
  let theory := AdvancedColorTheory.generateHarmoniousPalette seed scheme
  { accent := if useHarmonized then theory.accent else seed
    gray := theory.gray
    lightBackground := theory.lightBg
    darkBackground := theory.darkBg }

/-- ColorPaletteAutomation.isValidHex (current source): trim, strip one
leading hash, uppercase, then accept a 6-digit or a 3-digit hex form;
a missing/empty value is invalid. -/
def isValidHex (value : String) : Bool :=
  if value = "" then false
  else isHex6 (cleanedOf value) || isHex3 (cleanedOf value)

/-- ColorPaletteAutomation.generateFallbackAccentColors (current source):
twelve steps at hue 220, saturation 90, lightness 97 minus 7 per step,
clamped to [7, 97].  The loop index i runs from 1 to 12. -/
def generateFallbackAccentColors : List String :=
  (List.range 12).map (fun k =>
    let i := k + 1
    let l := 97 - (i - 1) * 7
    hslToHex ⟨220, 90, max 7 (min 97 l)⟩)

/-- ColorPaletteAutomation.generateFallbackGrayColors (current source):
twelve steps at hue 220, saturation 5, lightness 95 minus 7 per step,
clamped to [5, 95]. -/
def generateFallbackGrayColors : List String :=
  (List.range 12).map (fun k =>
    let i := k + 1
    let l := 95 - (i - 1) * 7
    hslToHex ⟨220, 5, max 5 (min 95 l)⟩)

/-- The indexing this.generateFallbackAccentColors()[i] used by the
extraction loops. -/
def fallbackAccentAt (i : Nat) : String :=
  generateFallbackAccentColors.getD i ""

/-- The indexing this.generateFallbackGrayColors()[i] used by the
extraction loops. -/
def fallbackGrayAt (i : Nat) : String :=
  generateFallbackGrayColors.getD i ""

/-- Outcome of one attempt of the per-swatch dialog protocol as seen
from the embedded code: either some step of the open/wait/read/close
sequence threw (click failure, dialog timeout, detachment timeout, ...)
or the sequence completed and the displayed text was read. -/
inductive AttemptOutcome where
  | threw
  | read (text : String)
deriving DecidableEq

/-- The innerText().trim().toUpperCase() post-processing of a read
dialog text in the current retry protocol. -/
def hexTextOf (w : String) : String :=
  String.mk ((jsTrim w.data).map Char.toUpper)

/-- Result of a full run of the retry protocol, instrumented with the
backoff waits it performed and the number of attempts it made. -/
structure RetryResult where
  result : Option String
  waits : List Nat
  attemptsUsed : Nat
deriving DecidableEq

/-- The attempt loop of ColorPaletteAutomation.extractHexFromOpenDialog
(current source), from a given attempt number up to the maxRetries
default of 3.  A completed read is kept only if isValidHex accepts it;
an attempt that threw performs the 120 * attempt backoff wait before
the next attempt; an invalid read retries without a wait; exhaustion
returns no value.  The loop is written with an explicit fuel (the
number of remaining iterations, 4 - attempt at every call) so that the
recursion is structural. -/
def extractHexGo (attempts : Nat → AttemptOutcome) : Nat → Nat → RetryResult
  | 0, attempt => ⟨none, [], attempt - 1⟩
  | fuel + 1, attempt =>
    if attempt ≤ 3 then
      match attempts attempt with
      | .read w =>
        if isValidHex (hexTextOf w) then ⟨some (hexTextOf w), [], attempt⟩
        else extractHexGo attempts fuel (attempt + 1)
      | .threw =>
        let r := extractHexGo attempts fuel (attempt + 1)
        ⟨r.result, 120 * attempt :: r.waits, r.attemptsUsed⟩
    else ⟨none, [], attempt - 1⟩

/-- A full instrumented run of the retry protocol (attempts start at 1,
three iterations of fuel remain). -/
def extractHexRun (attempts : Nat → AttemptOutcome) : RetryResult :=
  extractHexGo attempts 3 1

/-- ColorPaletteAutomation.extractHexFromOpenDialog: the value the
protocol hands back to the orchestrator loop. -/
def extractHexFromOpenDialog (attempts : Nat → AttemptOutcome) : Option String :=
  (extractHexRun attempts).result

/-- The two per-family color lists assembled by the extraction step. -/
structure ExtractedColors where
  accent : List String
  gray : List String
deriving DecidableEq

/-- One-at-a-time padding steps: push the fallback value for the
current length while the array is shorter than 12 and fuel remains. -/
def padSteps (f : Nat → String) : Nat → List String → List String
  | 0, xs => xs
  | fuel + 1, xs => if xs.length < 12 then padSteps f fuel (xs ++ [f xs.length]) else xs

/-- The trailing while loops of extractColorsFromSwatchesOn: push the
fallback value for the current length until the array has 12 entries.
The fuel 12 - length is exactly the number of iterations the while
loop performs, making the recursion structural. -/
def padTo12 (f : Nat → String) (xs : List String) : List String :=
  padSteps f (12 - xs.length) xs

/-- ColorPaletteAutomation.extractColorsFromSwatchesOn (current source),
with the browser page abstracted to the number of swatch elements found
and, for each raw swatch index, the outcome function of its retry
protocol.  First loop: raw indices 0 to min 12 count - 1 feed accent
positions, a missing value (protocol exhausted or the call threw)
being replaced by the accent fallback at the same position.  Second
loop: raw indices 12 to min 24 count - 1 feed gray positions 0 to
min 24 count - 13 with the gray fallback on failure.  Both arrays are
then padded to 12 entries with the fallback at each tail position. -/
def extractColorsFromSwatchesOn (count : Nat)
    (attemptsFor : Nat → Nat → AttemptOutcome) : ExtractedColors :=
  let accent := (List.range (min 12 count)).map (fun i =>
    (extractHexFromOpenDialog (attemptsFor i)).getD (fallbackAccentAt i))
  let gray := (List.range (min 24 count - 12)).map (fun idx =>
    (extractHexFromOpenDialog (attemptsFor (idx + 12))).getD (fallbackGrayAt idx))
  ⟨padTo12 fallbackAccentAt accent, padTo12 fallbackGrayAt gray⟩

/-- The browsing-resource events whose ordering and presence the
resource claims are about. -/
inductive ResourceEvent where
  | ctxCloseLight
  | ctxCloseDark
  | browserClose
deriving DecidableEq

/-- Failure surfaced by the parallel generation (navigation of one of
the two contexts to the oracle page timed out or failed). -/
inductive PaletteError where
  | sessionUnavailable
deriving DecidableEq

/-- Environment of one mode of the parallel generation: whether its
page navigation succeeds, how many swatch elements the page exposes and
the outcome function of every swatch's retry protocol. -/
structure ModeEnv where
  navOk : Bool
  count : Nat
  attemptsFor : Nat → Nat → AttemptOutcome

/-- Environment of a whole parallel generation request. -/
structure Env where
  light : ModeEnv
  dark : ModeEnv

/-- One of the two scales assembled by the orchestrator. -/
structure RadixColorScale where
  name : String
  lightSteps : List String
  darkSteps : List String
  lightHslSteps : List String
  darkHslSteps : List String
deriving DecidableEq

/-- The css part of the orchestrator output (left empty by the code);
the third field is called variables in the source, a name Lean reserves. -/
structure CssOutput where
  light : String
  dark : String
  vars : String
deriving DecidableEq

/-- The orchestrator output record. -/
structure GeneratedPalette where
  accent : RadixColorScale
  gray : RadixColorScale
  css : CssOutput
deriving DecidableEq

/-- Assembly of the two scales from the two per-mode extraction
results, shared by both generations of the orchestrator. -/
def assembleScales (lightResult darkResult : ExtractedColors) : GeneratedPalette :=
  { accent :=
      { name := "accent"
        lightSteps := lightResult.accent
        darkSteps := darkResult.accent
        lightHslSteps := lightResult.accent.map hexToHSLString
        darkHslSteps := darkResult.accent.map hexToHSLString }
    gray :=
      { name := "gray"
        lightSteps := lightResult.gray
        darkSteps := darkResult.gray
        lightHslSteps := lightResult.gray.map hexToHSLString
        darkHslSteps := darkResult.gray.map hexToHSLString }
    css := ⟨"", "", ""⟩ }

/-- ColorPaletteAutomation.generateRadixPaletteParallel (current
source).  Both contexts are created and both pages navigate inside one
Promise.all: if either navigation fails the whole call rejects.  The
finally block closes both contexts on every exit path, so both close
events appear in the trace whether the call succeeds or rejects.  The
mode flows themselves are failure-masking (every per-swatch failure is
absorbed by the retry protocol and the fallback substitution), so after
two successful navigations the call returns the assembled palette. -/
def generateRadixPaletteParallel (env : Env) :
    Except PaletteError GeneratedPalette × List ResourceEvent :=
  if env.light.navOk && env.dark.navOk then
    let lightResult := extractColorsFromSwatchesOn env.light.count env.light.attemptsFor
    let darkResult := extractColorsFromSwatchesOn env.dark.count env.dark.attemptsFor
    (.ok (assembleScales lightResult darkResult), [.ctxCloseLight, .ctxCloseDark])
  else
    (.error .sessionUnavailable, [.ctxCloseLight, .ctxCloseDark])

/-- The response record of PaletteService.generatePalette. -/
structure PaletteResponse where
  accent : String
  gray : String
  lightBackground : String
  darkBackground : String
  accentScaleLight : List String
  accentScaleDark : List String
  grayScaleLight : List String
  grayScaleDark : List String
deriving DecidableEq

namespace PaletteService

/-- PaletteService.generatePalette (current source): base colors, then
the parallel extraction, then — only on the successful path — the
browser shutdown when the keep-warm policy is off.  A rejection of the
parallel extraction propagates to the caller without running the
shutdown step (there is no try/finally around it in the service). -/
def generatePalette (env : Env) (keepBrowserAlive : Bool) (hex : String)
    (scheme : Scheme) (harmonized : Option Bool) :
    Except PaletteError PaletteResponse × List ResourceEvent :=
  let baseColors := generateBaseColors (some hex) scheme harmonized
  match generateRadixPaletteParallel env with
  | (.ok full, ev) =>
    (.ok
      { accent := baseColors.accent
        gray := baseColors.gray
        lightBackground := baseColors.lightBackground
        darkBackground := baseColors.darkBackground
        accentScaleLight := full.accent.lightSteps
        accentScaleDark := full.accent.darkSteps
        grayScaleLight := full.gray.lightSteps
        grayScaleDark := full.gray.darkSteps },
     if keepBrowserAlive then ev else ev ++ [.browserClose])
  | (.error e, ev) => (.error e, ev)

end PaletteService

/-- JavaScript .replace with a plain one-hash string pattern: removes
the first hash character wherever it occurs (the legacy validator uses
this unanchored form). -/
def removeFirstHash : List Char → List Char
  | [] => []
  | '#' :: rest => rest
  | c :: rest => c :: removeFirstHash rest

/-- Case-insensitive hex digit test, the [0-9A-F] class under the i
regex flag. -/
def isHexDigitCI (c : Char) : Bool :=
  (48 ≤ c.toNat && c.toNat ≤ 57) || (65 ≤ c.toNat && c.toNat ≤ 70)
    || (97 ≤ c.toNat && c.toNat ≤ 102)

/-- The anchored case-insensitive six-digit test of the legacy
validator. -/
def hexSixCI (l : List Char) : Bool :=
  l.length = 6 && l.all isHexDigitCI

namespace Legacy

/-- The legacy ColorPaletteAutomation.isValidHex: strip the first hash,
require six case-insensitive hex digits, and additionally reject the
two literal strings 000000 and FFFFFF (pure black and pure white); a
missing/empty value is invalid. -/
def isValidHex (color : String) : Bool :=
  if color = "" then false
  else
    let hex := removeFirstHash color.data
    hexSixCI hex && !(hex == "000000".data) && !(hex == "FFFFFF".data)

/-- The textContent()?.trim() post-processing of a read dialog text in
the legacy retry protocol (no uppercasing). -/
def hexTextOf (w : String) : String :=
  String.mk (jsTrim w.data)

/-- The attempt loop of the legacy
ColorPaletteAutomation.extractColorFromSwatchWithRetry, from a given
attempt number up to the maxRetries default of 3.  A completed read is
kept only if the legacy isValidHex accepts it; an attempt that threw
performs a constant 200 wait before the next attempt; exhaustion
returns no value.  Written with the same structural fuel as the
current protocol loop. -/
def extractColorRetryGo (attempts : Nat → AttemptOutcome) : Nat → Nat → RetryResult
  | 0, attempt => ⟨none, [], attempt - 1⟩
  | fuel + 1, attempt =>
    if attempt ≤ 3 then
      match attempts attempt with
      | .read w =>
        if isValidHex (hexTextOf w) then ⟨some (hexTextOf w), [], attempt⟩
        else extractColorRetryGo attempts fuel (attempt + 1)
      | .threw =>
        let r := extractColorRetryGo attempts fuel (attempt + 1)
        ⟨r.result, 200 :: r.waits, r.attemptsUsed⟩
    else ⟨none, [], attempt - 1⟩

/-- The legacy retry protocol's returned value (attempts start at 1,
three iterations of fuel remain). -/
def extractColorFromSwatchWithRetry (attempts : Nat → AttemptOutcome) : Option String :=
  (extractColorRetryGo attempts 3 1).result

/-- The legacy accent fallback generator: base hue 217; lightness
descending from 95 by 8 per step for steps 1 to 6 and from 80 by 12 per
step for steps 7 to 12, clamped to [5, 95]; saturation 91 at step 9 and
otherwise 90 minus 8 per step of distance from step 9, floored at 10. -/
def generateFallbackAccentColors : List String :=
  (List.range 12).map (fun k =>
    let i := k + 1
    let lightness := if i ≤ 6 then 95 - (i - 1) * 8 else 80 - (i - 7) * 12
    let saturation := if i = 9 then 91 else max 10 (90 - Nat.dist i 9 * 8)
    hslToHex ⟨217, saturation, max 5 (min 95 lightness)⟩)

/-- The legacy gray fallback generator: hue 220, saturation 5,
lightness descending from 95 by 7 per step, clamped to [5, 95]. -/
def generateFallbackGrayColors : List String :=
  (List.range 12).map (fun k =>
    let i := k + 1
    let l := 95 - (i - 1) * 7
    hslToHex ⟨220, 5, max 5 (min 95 l)⟩)

/-- The legacy indexing generateFallbackAccentColors()[i]. -/
def fallbackAccentAt (i : Nat) : String :=
  generateFallbackAccentColors.getD i ""

/-- The legacy indexing generateFallbackGrayColors()[i]. -/
def fallbackGrayAt (i : Nat) : String :=
  generateFallbackGrayColors.getD i ""

/-- The legacy ColorPaletteAutomation.extractColorsFromSwatches: the
same two raw-index loops as the current source, except that a returned
color is validated once more before being pushed and that there is no
trailing padding loop (fewer than 24 swatches leave the arrays short). -/
def extractColorsFromSwatches (count : Nat)
    (attemptsFor : Nat → Nat → AttemptOutcome) : ExtractedColors :=
  ⟨(List.range (min 12 count)).map (fun i =>
      match extractColorFromSwatchWithRetry (attemptsFor i) with
      | some color => if isValidHex color then color else fallbackAccentAt i
      | none => fallbackAccentAt i),
   (List.range (min 24 count - 12)).map (fun idx =>
      match extractColorFromSwatchWithRetry (attemptsFor (idx + 12)) with
      | some color => if isValidHex color then color else fallbackGrayAt idx
      | none => fallbackGrayAt idx)⟩

/-- Environment of one mode of the legacy extractor: whether its own
browser navigates, whether the mode toggle and input fill step
completes (it rethrows on failure), and the swatch environment. -/
structure ModeEnv where
  navOk : Bool
  setupOk : Bool
  count : Nat
  attemptsFor : Nat → Nat → AttemptOutcome

/-- The legacy ColorPaletteAutomation.extractColorsForMode: a fresh
browser per mode; any error up to and including the setup step is
caught and replaced by the full fallback ramp pair for this mode, so
the call never rejects. -/
def extractColorsForMode (m : ModeEnv) : ExtractedColors :=
  if m.navOk && m.setupOk then extractColorsFromSwatches m.count m.attemptsFor
  else ⟨generateFallbackAccentColors, generateFallbackGrayColors⟩

/-- The legacy ColorPaletteAutomation.generateRadixPalette: both modes
run concurrently and independently, and the scales are assembled from
the two per-mode results. -/
def generateRadixPalette (lightEnv darkEnv : ModeEnv) : GeneratedPalette :=
  assembleScales (extractColorsForMode lightEnv) (extractColorsForMode darkEnv)

end Legacy

/-! Specification-side definitions: these follow the wording of the
claims (not the source) and exist to be compared with the embedded
source functions. -/

/-- The claimed output shape of seed normalization: a hash followed by
exactly six uppercase hex digits. -/
def isSeedPattern (s : String) : Bool :=
  match s.data with
  | '#' :: rest => isHex6 rest
  | _ => false

/-- The claimed per-scheme gray hue offset (degrees). -/
def grayHueOffset : Scheme → Nat
  | .analogous => 30
  | .complementary => 180
  | .triadic => 120
  | .monochromatic => 0

/-- The per-scheme fixed gray saturation used by the harmony generator. -/
def graySaturation : Scheme → Nat
  | .analogous => 8
  | .complementary => 6
  | .triadic => 10
  | .monochromatic => 5

/-- The claimed gray hue: an exact modulo-360 offset from the seed hue,
the monochromatic scheme keeping the seed hue itself. -/
def claimedGrayHue (scheme : Scheme) (seedHue : Nat) : Nat :=
  match scheme with
  | .monochromatic => seedHue
  | s => (seedHue + grayHueOffset s) % 360

/-- The per-scheme accent saturation floor of the harmony generator. -/
def accentSatFloor : Scheme → Nat
  | .analogous => 70
  | .complementary => 80
  | .triadic => 75
  | .monochromatic => 85

/-- The accent-fallback saturation formula as the claim states it:
91 at step 9, falling off by 8 per step of distance from step 9,
floored at 10. -/
def c3SpecSaturation (i : Nat) : Nat :=
  max 10 (91 - 8 * Nat.dist i 9)

/-- The accent-fallback lightness formula as the claim states it:
95 minus 8 per step for steps 1 to 6, 80 minus 12 per step for steps
7 to 12, clamped to [5, 95]. -/
def c3SpecLightness (i : Nat) : Nat :=
  max 5 (min 95 (if i ≤ 6 then 95 - (i - 1) * 8 else 80 - (i - 7) * 12))

/-- The claim about the accent fallback ramp generator, as stated: for
some fixed base hue, every step i in 1..12 is the hex encoding of that
hue with the claimed saturation and lightness formulas. -/
def c3ClaimHolds : Prop :=
  ∃ baseHue : Nat, ∀ i, 1 ≤ i → i ≤ 12 →
    generateFallbackAccentColors.getD (i - 1) ""
      = hslToHex ⟨baseHue, c3SpecSaturation i, c3SpecLightness i⟩

/-- Whether one attempt of the current retry protocol would be accepted
by its validation. -/
def validAttempt : AttemptOutcome → Bool
  | .threw => false
  | .read w => isValidHex (hexTextOf w)

/-- Whether one attempt of the legacy retry protocol would be accepted
by its validation. -/
def legacyValidAttempt : AttemptOutcome → Bool
  | .threw => false
  | .read w => Legacy.isValidHex (Legacy.hexTextOf w)

/-- The behaviour of the current retry loop from attempt a onward, as a
single predicate: at most three attempts ever run, exhaustion of
acceptable attempts yields no value, every backoff wait is the linear
120 * (its attempt number) and belongs to an attempt that threw, and a
returned value is a validated read. -/
abbrev RetrySpec (attempts : Nat → AttemptOutcome) (a : Nat) (r : RetryResult) : Prop :=
  r.attemptsUsed ≤ 3
  ∧ ((∀ k, a ≤ k → k ≤ 3 → validAttempt (attempts k) = false) → r.result = none)
  ∧ (∀ w, w ∈ r.waits → ∃ k, a ≤ k ∧ k ≤ 3 ∧ attempts k = .threw ∧ w = 120 * k)
  ∧ (∀ v, r.result = some v →
      ∃ k t, a ≤ k ∧ k ≤ 3 ∧ attempts k = .read t ∧ v = hexTextOf t ∧ isValidHex v = true)

/-- The four step-array lengths of an assembled palette. -/
def scaleLengths (p : GeneratedPalette) : (Nat × Nat) × (Nat × Nat) :=
  ((p.accent.lightSteps.length, p.accent.darkSteps.length),
   (p.gray.lightSteps.length, p.gray.darkSteps.length))

/-- A swatch environment whose every protocol attempt reads a fixed
valid color. -/
def liveReads : Nat → Nat → AttemptOutcome := fun _ _ => .read "#1A2B3C"

/-- A swatch environment whose every protocol attempt throws. -/
def allThrow : Nat → Nat → AttemptOutcome := fun _ _ => .threw

/-- Concrete request environment: the light context navigates, the dark
context's navigation fails. -/
def envDarkNavFails : Env :=
  ⟨⟨true, 24, liveReads⟩, ⟨false, 24, liveReads⟩⟩

/-- Concrete request environment for the resource-release scenario: the
dark navigation failure makes the whole parallel call reject. -/
def envC8 : Env :=
  ⟨⟨true, 24, liveReads⟩, ⟨false, 24, liveReads⟩⟩

/-- Concrete request environment with both navigations succeeding, the
dark page exposing no swatches. -/
def envBothNavOk : Env :=
  ⟨⟨true, 24, liveReads⟩, ⟨true, 0, allThrow⟩⟩

/-- Concrete swatch environment: raw index 0 reads a valid color, every
other raw index always throws. -/
def mixedReads : Nat → Nat → AttemptOutcome :=
  fun i _ => if i = 0 then .read "#AABBCC" else .threw

/-- Concrete swatch environment: every attempt of every swatch reads
pure black. -/
def blackReads : Nat → Nat → AttemptOutcome := fun _ _ => .read "#000000"

/-- Concrete legacy mode environment with a working session. -/
def legacyLiveMode : Legacy.ModeEnv := ⟨true, true, 24, liveReads⟩

/-- Concrete legacy mode environment whose session acquisition fails. -/
def legacyNavFailMode : Legacy.ModeEnv := ⟨false, true, 24, liveReads⟩

/-! Helper lemmas about list indexing and the padding loop. -/

lemma getD_range_map (g : Nat → String) (n i : Nat) :
    ((List.range n).map g).getD i "" = if i < n then g i else "" := by
  rw [List.getD_eq_getElem?_getD, List.getElem?_map]
  by_cases h : i < n
  · rw [List.getElem?_range h, if_pos h]
    rfl
  · rw [List.getElem?_eq_none (by simpa using Nat.le_of_not_lt h), if_neg h]
    rfl

lemma getD_append_lt (xs : List String) (x : String) (i : Nat) (h : i < xs.length) :
    (xs ++ [x]).getD i "" = xs.getD i "" := by
  rw [List.getD_eq_getElem?_getD, List.getElem?_append, if_pos h, ← List.getD_eq_getElem?_getD]

lemma getD_append_self (xs : List String) (x : String) :
    (xs ++ [x]).getD xs.length "" = x := by
  rw [List.getD_eq_getElem?_getD, List.getElem?_append, if_neg (by omega)]
  simp

lemma padSteps_length (f : Nat → String) :
    ∀ (fuel : Nat) (xs : List String), 12 - xs.length ≤ fuel →
      (padSteps f fuel xs).length = max 12 xs.length := by
  intro fuel
  induction fuel with
  | zero =>
    intro xs h
    rw [padSteps]
    omega
  | succ m ih =>
    intro xs h
    by_cases hlt : xs.length < 12
    · rw [padSteps, if_pos hlt, ih (xs ++ [f xs.length]) (by simp; omega)]
      simp
      omega
    · rw [padSteps, if_neg hlt]
      omega

lemma padSteps_getD (f : Nat → String) :
    ∀ (fuel : Nat) (xs : List String), 12 - xs.length ≤ fuel →
      ∀ i, i < 12 →
        (padSteps f fuel xs).getD i "" = if i < xs.length then xs.getD i "" else f i := by
  intro fuel
  induction fuel with
  | zero =>
    intro xs h i hi
    rw [padSteps, if_pos (by omega)]
  | succ m ih =>
    intro xs h i hi
    by_cases hlt : xs.length < 12
    · rw [padSteps, if_pos hlt, ih (xs ++ [f xs.length]) (by simp; omega) i hi]
      rcases Nat.lt_trichotomy i xs.length with hc | hc | hc
      · rw [if_pos (by simp; omega), if_pos hc, getD_append_lt xs _ i hc]
      · subst hc
        rw [if_pos (by simp), if_neg (by omega), getD_append_self]
      · rw [if_neg (by simp; omega), if_neg (by omega)]
    · rw [padSteps, if_neg hlt, if_pos (by omega)]

lemma padTo12_length (f : Nat → String) (xs : List String) :
    (padTo12 f xs).length = max 12 xs.length :=
  padSteps_length f (12 - xs.length) xs le_rfl

lemma padTo12_getD (f : Nat → String) (xs : List String) (i : Nat) (hi : i < 12) :
    (padTo12 f xs).getD i "" = if i < xs.length then xs.getD i "" else f i :=
  padSteps_getD f (12 - xs.length) xs le_rfl i hi

/-! Helper lemmas about the extraction step. -/

lemma extract_accent_length (count : Nat) (af : Nat → Nat → AttemptOutcome) :
    (extractColorsFromSwatchesOn count af).accent.length = 12 := by
  show (padTo12 fallbackAccentAt _).length = 12
  rw [padTo12_length]
  simp only [List.length_map, List.length_range]
  omega

lemma extract_gray_length (count : Nat) (af : Nat → Nat → AttemptOutcome) :
    (extractColorsFromSwatchesOn count af).gray.length = 12 := by
  show (padTo12 fallbackGrayAt _).length = 12
  rw [padTo12_length]
  simp only [List.length_map, List.length_range]
  omega

lemma extract_accent_getD (count : Nat) (af : Nat → Nat → AttemptOutcome)
    (i : Nat) (hi : i < 12) :
    (extractColorsFromSwatchesOn count af).accent.getD i ""
      = if i < min 12 count then (extractHexFromOpenDialog (af i)).getD (fallbackAccentAt i)
        else fallbackAccentAt i := by
  show (padTo12 fallbackAccentAt ((List.range (min 12 count)).map _)).getD i "" = _
  rw [padTo12_getD _ _ i hi]
  rw [List.length_map, List.length_range]
  by_cases h : i < min 12 count
  · rw [if_pos h, if_pos h, getD_range_map, if_pos h]
  · rw [if_neg h, if_neg h]

lemma extract_gray_getD (count : Nat) (af : Nat → Nat → AttemptOutcome)
    (i : Nat) (hi : i < 12) :
    (extractColorsFromSwatchesOn count af).gray.getD i ""
      = if i < min 24 count - 12 then (extractHexFromOpenDialog (af (i + 12))).getD (fallbackGrayAt i)
        else fallbackGrayAt i := by
  show (padTo12 fallbackGrayAt ((List.range (min 24 count - 12)).map _)).getD i "" = _
  rw [padTo12_getD _ _ i hi]
  rw [List.length_map, List.length_range]
  by_cases h : i < min 24 count - 12
  · rw [if_pos h, if_pos h, getD_range_map, if_pos h]
  · rw [if_neg h, if_neg h]

/-! Helper lemmas about the retry protocols: one-step unfolding
equations, then the behaviour predicates. -/

lemma extractHexGo_read (attempts : Nat → AttemptOutcome) (fuel attempt : Nat) (w : String)
    (h3 : attempt ≤ 3) (hatt : attempts attempt = .read w) :
    extractHexGo attempts (fuel + 1) attempt
      = if isValidHex (hexTextOf w) then ⟨some (hexTextOf w), [], attempt⟩
        else extractHexGo attempts fuel (attempt + 1) := by
  rw [extractHexGo, if_pos h3, hatt]

lemma extractHexGo_threw (attempts : Nat → AttemptOutcome) (fuel attempt : Nat)
    (h3 : attempt ≤ 3) (hatt : attempts attempt = .threw) :
    extractHexGo attempts (fuel + 1) attempt
      = ⟨(extractHexGo attempts fuel (attempt + 1)).result,
         120 * attempt :: (extractHexGo attempts fuel (attempt + 1)).waits,
         (extractHexGo attempts fuel (attempt + 1)).attemptsUsed⟩ := by
  rw [extractHexGo, if_pos h3, hatt]

lemma retrySpec_exhausted (attempts : Nat → AttemptOutcome) (attempt : Nat)
    (h : 1 ≤ attempt) (h4 : attempt ≤ 4) :
    RetrySpec attempts attempt (extractHexGo attempts (4 - attempt) attempt) := by
  obtain ⟨fuel, hfuel⟩ : ∃ fuel, 4 - attempt = fuel := ⟨4 - attempt, rfl⟩
  rw [hfuel]
  induction fuel generalizing attempt with
  | zero =>
    have ha : attempt = 4 := by omega
    subst ha
    rw [extractHexGo]
    exact ⟨by decide, fun _ => rfl, by simp, by simp⟩
  | succ m ih =>
    have h3 : attempt ≤ 3 := by omega
    have ihs := ih (attempt + 1) (by omega) (by omega) (by omega)
    obtain ⟨ihUsed, ihNone, ihWaits, ihSome⟩ := ihs
    cases hatt : attempts attempt with
    | read w =>
      rw [extractHexGo_read attempts m attempt w h3 hatt]
      by_cases hv : isValidHex (hexTextOf w)
      · rw [if_pos hv]
        refine ⟨h3, ?_, by simp, ?_⟩
        · intro hall
          have hfalse := hall attempt le_rfl h3
          rw [hatt] at hfalse
          simp [validAttempt, hv] at hfalse
        · intro v hres
          simp only [Option.some.injEq] at hres
          exact ⟨attempt, w, le_rfl, h3, hatt, hres.symm, by rw [← hres]; exact hv⟩
      · rw [if_neg hv]
        refine ⟨ihUsed, ?_, ?_, ?_⟩
        · intro hall
          exact ihNone (fun k hk1 hk3 => hall k (by omega) hk3)
        · intro w2 hw2
          obtain ⟨k, hk1, hk3, hthrew, hw⟩ := ihWaits w2 hw2
          exact ⟨k, by omega, hk3, hthrew, hw⟩
        · intro v hres
          obtain ⟨k, t, hk1, hk3, hread, hvt, hval⟩ := ihSome v hres
          exact ⟨k, t, by omega, hk3, hread, hvt, hval⟩
    | threw =>
      rw [extractHexGo_threw attempts m attempt h3 hatt]
      refine ⟨ihUsed, ?_, ?_, ?_⟩
      · intro hall
        exact ihNone (fun k hk1 hk3 => hall k (by omega) hk3)
      · intro w2 hw2
        rcases List.mem_cons.mp hw2 with hw2 | hw2
        · exact ⟨attempt, le_rfl, h3, hatt, hw2⟩
        · obtain ⟨k, hk1, hk3, hthrew, hw⟩ := ihWaits w2 hw2
          exact ⟨k, by omega, hk3, hthrew, hw⟩
      · intro v hres
        obtain ⟨k, t, hk1, hk3, hread, hvt, hval⟩ := ihSome v hres
        exact ⟨k, t, by omega, hk3, hread, hvt, hval⟩

lemma retrySpec_run (attempts : Nat → AttemptOutcome) :
    RetrySpec attempts 1 (extractHexRun attempts) :=
  retrySpec_exhausted attempts 1 le_rfl (by omega)

lemma legacyRetryGo_read (attempts : Nat → AttemptOutcome) (fuel attempt : Nat) (w : String)
    (h3 : attempt ≤ 3) (hatt : attempts attempt = .read w) :
    Legacy.extractColorRetryGo attempts (fuel + 1) attempt
      = if Legacy.isValidHex (Legacy.hexTextOf w)
        then ⟨some (Legacy.hexTextOf w), [], attempt⟩
        else Legacy.extractColorRetryGo attempts fuel (attempt + 1) := by
  rw [Legacy.extractColorRetryGo, if_pos h3, hatt]

lemma legacyRetryGo_threw (attempts : Nat → AttemptOutcome) (fuel attempt : Nat)
    (h3 : attempt ≤ 3) (hatt : attempts attempt = .threw) :
    Legacy.extractColorRetryGo attempts (fuel + 1) attempt
      = ⟨(Legacy.extractColorRetryGo attempts fuel (attempt + 1)).result,
         200 :: (Legacy.extractColorRetryGo attempts fuel (attempt + 1)).waits,
         (Legacy.extractColorRetryGo attempts fuel (attempt + 1)).attemptsUsed⟩ := by
  rw [Legacy.extractColorRetryGo, if_pos h3, hatt]

lemma legacyRetry_exhaust (attempts : Nat → AttemptOutcome) (attempt : Nat)
    (h : 1 ≤ attempt) (h4 : attempt ≤ 4)
    (hall : ∀ k, attempt ≤ k → k ≤ 3 → legacyValidAttempt (attempts k) = false) :
    (Legacy.extractColorRetryGo attempts (4 - attempt) attempt).result = none
    ∧ (Legacy.extractColorRetryGo attempts (4 - attempt) attempt).attemptsUsed = 3 := by
  obtain ⟨fuel, hfuel⟩ : ∃ fuel, 4 - attempt = fuel := ⟨4 - attempt, rfl⟩
  rw [hfuel]
  induction fuel generalizing attempt with
  | zero =>
    have ha : attempt = 4 := by omega
    subst ha
    rw [Legacy.extractColorRetryGo]
    exact ⟨rfl, rfl⟩
  | succ m ih =>
    have h3 : attempt ≤ 3 := by omega
    have ihs := ih (attempt + 1) (by omega) (by omega)
      (fun k hk1 hk3 => hall k (by omega) hk3) (by omega)
    cases hatt : attempts attempt with
    | read w =>
      have hfalse := hall attempt le_rfl h3
      rw [hatt] at hfalse
      simp only [legacyValidAttempt] at hfalse
      rw [legacyRetryGo_read attempts m attempt w h3 hatt, if_neg (by simp [hfalse])]
      exact ihs
    | threw =>
      rw [legacyRetryGo_threw attempts m attempt h3 hatt]
      exact ⟨ihs.1, ihs.2⟩

/-! Helper lemmas about seed normalization and the hex encoders. -/

lemma isHex3_expand (l : List Char) (h : isHex3 l = true) : isHex6 (expand3 l) = true := by
  rcases l with _ | ⟨a, l⟩
  · simp [isHex3] at h
  rcases l with _ | ⟨b, l⟩
  · simp [isHex3] at h
  rcases l with _ | ⟨c, l⟩
  · simp [isHex3] at h
  rcases l with _ | ⟨d, l⟩
  · simp only [isHex3, List.all_cons, List.all_nil, Bool.and_true,
      Bool.and_eq_true, decide_eq_true_eq] at h
    obtain ⟨-, ha, hb, hc⟩ := h
    simp [isHex6, expand3, ha, hb, hc]
  · simp [isHex3] at h

lemma hslToHex_mod (h s l : Nat) : hslToHex ⟨h, s, l⟩ = hslToHex ⟨h % 360, s, l⟩ := by
  simp only [hslToHex, Nat.mod_mod_of_dvd _ dvd_rfl]


/-! The claims. -/

/-- C4: the per-swatch extraction protocol attempts the
open/read/close sequence at most 3 times; when no attempt is accepted
it returns no value instead of raising; every backoff wait it performs
is the linear 120 * (attempt number) of an attempt that threw; and the
only non-empty result it can return is a validated read — substituting
a fallback is the caller's job, never the protocol's. -/
theorem c4_retry_protocol :
    ∀ attempts : Nat → AttemptOutcome,
      (extractHexRun attempts).attemptsUsed ≤ 3
      ∧ ((∀ k, 1 ≤ k → k ≤ 3 → validAttempt (attempts k) = false) →
          (extractHexRun attempts).result = none)
      ∧ (∀ w, w ∈ (extractHexRun attempts).waits →
          ∃ k, 1 ≤ k ∧ k ≤ 3 ∧ attempts k = .threw ∧ w = 120 * k)
      ∧ (∀ v, (extractHexRun attempts).result = some v →
          ∃ k t, 1 ≤ k ∧ k ≤ 3 ∧ attempts k = .read t ∧ v = hexTextOf t
            ∧ isValidHex v = true) :=
  fun attempts => retrySpec_run attempts

/-- Witness for C4: a protocol whose every attempt throws uses all
three attempts, returns no value and waits 120, 240, 360. -/
theorem c4_witness :
    (extractHexRun (fun _ => .threw)).result = none
    ∧ (extractHexRun (fun _ => .threw)).attemptsUsed ≤ 3
    ∧ (extractHexRun (fun _ => .threw)).waits = [120, 240, 360] := by
  have h := c4_retry_protocol (fun _ => .threw)
  exact ⟨h.2.1 (fun k hk1 hk3 => rfl), h.1, by decide⟩

/-- C6: for every seed and scheme, the harmony generator's gray is the
hex encoding of the exact modulo-360 offset hue — seed hue plus 30
(analogous), 180 (complementary), 120 (triadic), or the seed hue
itself (monochromatic) — at the scheme's fixed saturation and
lightness 50; wraparound is handled by the modulo. -/
theorem c6_gray_hue_offsets :
    ∀ (seed : String) (scheme : Scheme),
      (AdvancedColorTheory.generateHarmoniousPalette seed scheme).gray
        = hslToHex ⟨claimedGrayHue scheme (hexToHSL seed).h, graySaturation scheme, 50⟩ := by
  intro seed scheme
  cases scheme <;> rfl

/-- C7: with the harmonized flag set, generateBaseColors returns the
scheme-transformed accent (seed hue, saturation raised to the scheme's
floor, lightness 55); with the flag false or absent it returns the
normalized seed verbatim. -/
theorem c7_harmonized_accent :
    ∀ (brand : Option String) (scheme : Scheme),
      (generateBaseColors brand scheme (some true)).accent
        = hslToHex ⟨(hexToHSL (seedOf brand)).h,
            max (accentSatFloor scheme) (hexToHSL (seedOf brand)).s, 55⟩
      ∧ (generateBaseColors brand scheme (some false)).accent = seedOf brand
      ∧ (generateBaseColors brand scheme none).accent = seedOf brand := by
  intro brand scheme
  refine ⟨?_, rfl, rfl⟩
  cases scheme <;> rfl

/-- C1: for every swatch count (including fewer than 24) and every
combination of per-swatch protocol success, partial failure and total
failure, the extraction step's accent and gray arrays have length
exactly 12 with every missing or failed position holding that
position's fallback value, and the ColorScale assembled by the
orchestrator carries four step arrays of length exactly 12. -/
theorem c1_scale_arrays_always_twelve :
    ∀ (count : Nat) (af : Nat → Nat → AttemptOutcome),
      (extractColorsFromSwatchesOn count af).accent.length = 12
      ∧ (extractColorsFromSwatchesOn count af).gray.length = 12
      ∧ (∀ i, i < 12 → (extractHexFromOpenDialog (af i) = none ∨ count ≤ i) →
          (extractColorsFromSwatchesOn count af).accent.getD i "" = fallbackAccentAt i)
      ∧ (∀ i, i < 12 → (extractHexFromOpenDialog (af (i + 12)) = none ∨ count ≤ i + 12) →
          (extractColorsFromSwatchesOn count af).gray.getD i "" = fallbackGrayAt i)
      ∧ (∀ env : Env, env.light.navOk = true → env.dark.navOk = true →
          (generateRadixPaletteParallel env).1.map scaleLengths = .ok ((12, 12), (12, 12))) := by
  intro count af
  refine ⟨extract_accent_length count af, extract_gray_length count af, ?_, ?_, ?_⟩
  · intro i hi hfail
    rw [extract_accent_getD count af i hi]
    by_cases h : i < min 12 count
    · rcases hfail with hnone | hcount
      · rw [if_pos h, hnone]
        rfl
      · omega
    · rw [if_neg h]
  · intro i hi hfail
    rw [extract_gray_getD count af i hi]
    by_cases h : i < min 24 count - 12
    · rcases hfail with hnone | hcount
      · rw [if_pos h, hnone]
        rfl
      · omega
    · rw [if_neg h]
  · intro env h1 h2
    rw [generateRadixPaletteParallel, if_pos (by rw [h1, h2]; rfl)]
    simp [Except.map, scaleLengths, assembleScales,
      extract_accent_length, extract_gray_length]

/-- Witness for C1 at concrete inputs: no swatches found, every
protocol attempt throwing, and a request whose dark page has no
swatches. -/
theorem c1_witness :
    (extractColorsFromSwatchesOn 0 allThrow).accent.length = 12
    ∧ (extractColorsFromSwatchesOn 0 allThrow).accent.getD 0 "" = fallbackAccentAt 0
    ∧ (generateRadixPaletteParallel envBothNavOk).1.map scaleLengths = .ok ((12, 12), (12, 12)) := by
  have h := c1_scale_arrays_always_twelve 0 allThrow
  exact ⟨h.1, h.2.2.1 0 (by decide) (Or.inr (by decide)),
    h.2.2.2.2 envBothNavOk rfl rfl⟩

/-- C9: live reads are assigned by raw swatch index — raw indices
0..min(12,c)-1 to accent positions, raw indices 12..min(24,c)-1 to gray
positions shifted by 12 — each family's tail is padded with the
fallback value of the tail position, and for any count of at most 12
the gray ramp is entirely the fallback ramp. -/
theorem c9_raw_index_assignment :
    ∀ (count : Nat) (af : Nat → Nat → AttemptOutcome),
      (∀ i, i < 12 →
        (extractColorsFromSwatchesOn count af).accent.getD i ""
          = if i < min 12 count
            then (extractHexFromOpenDialog (af i)).getD (fallbackAccentAt i)
            else fallbackAccentAt i)
      ∧ (∀ i, i < 12 →
        (extractColorsFromSwatchesOn count af).gray.getD i ""
          = if i + 12 < min 24 count
            then (extractHexFromOpenDialog (af (i + 12))).getD (fallbackGrayAt i)
            else fallbackGrayAt i)
      ∧ (count ≤ 12 → (extractColorsFromSwatchesOn count af).gray = generateFallbackGrayColors) := by
  intro count af
  refine ⟨fun i hi => extract_accent_getD count af i hi, ?_, ?_⟩
  · intro i hi
    rw [extract_gray_getD count af i hi]
    by_cases h : i < min 24 count - 12
    · rw [if_pos h, if_pos (by omega)]
    · rw [if_neg h, if_neg (by omega)]
  · intro hc
    have hz : min 24 count - 12 = 0 := by omega
    show padTo12 fallbackGrayAt ((List.range (min 24 count - 12)).map
      (fun idx => (extractHexFromOpenDialog (af (idx + 12))).getD (fallbackGrayAt idx)))
        = generateFallbackGrayColors
    rw [hz, List.range_zero, List.map_nil]
    decide

/-- Witness for C9: thirteen swatches found, raw index 0 reading live,
raw index 12 throwing; and a count of twelve giving the whole fallback
gray ramp. -/
theorem c9_witness :
    (extractColorsFromSwatchesOn 13 mixedReads).accent.getD 0 "" = "#AABBCC"
    ∧ (extractColorsFromSwatchesOn 13 mixedReads).gray.getD 0 "" = fallbackGrayAt 0
    ∧ (extractColorsFromSwatchesOn 12 mixedReads).gray = generateFallbackGrayColors := by
  have h := c9_raw_index_assignment 13 mixedReads
  have h12 := c9_raw_index_assignment 12 mixedReads
  refine ⟨?_, ?_, h12.2.2 (by decide)⟩
  · rw [h.1 0 (by decide)]
    decide
  · rw [h.2.1 0 (by decide)]
    decide

lemma c5_some (s : String) :
    isSeedPattern (seedOf (some s)) = true
    ∧ (isHex6 (cleanedOf s) = true → seedOf (some s) = String.mk ('#' :: cleanedOf s))
    ∧ (isHex3 (cleanedOf s) = true → seedOf (some s) = String.mk ('#' :: expand3 (cleanedOf s)))
    ∧ (isHex6 (cleanedOf s) = false → isHex3 (cleanedOf s) = false →
        seedOf (some s) = "#3B82F6") := by
  by_cases hemp : s = ""
  · subst hemp
    refine ⟨by decide, ?_, ?_, fun _ _ => rfl⟩
    · intro h6
      exact absurd h6 (by decide)
    · intro h3
      exact absurd h3 (by decide)
  · simp only [seedOf, normalizeSeed]
    rw [if_neg hemp]
    by_cases h6 : isHex6 (cleanedOf s)
    · rw [if_pos h6]
      refine ⟨?_, fun _ => rfl, ?_, ?_⟩
      · show isHex6 (cleanedOf s) = true
        exact h6
      · intro h3
        exfalso
        simp only [isHex6, Bool.and_eq_true, decide_eq_true_eq] at h6
        simp only [isHex3, Bool.and_eq_true, decide_eq_true_eq] at h3
        omega
      · intro h6f _
        exact absurd h6 (by rw [h6f]; decide)
    · rw [if_neg h6]
      by_cases h3 : isHex3 (cleanedOf s)
      · rw [if_pos h3]
        refine ⟨?_, ?_, fun _ => rfl, ?_⟩
        · show isHex6 (expand3 (cleanedOf s)) = true
          exact isHex3_expand _ h3
        · intro h6t
          exact absurd h6t h6
        · intro _ h3f
          exact absurd h3 (by rw [h3f]; decide)
      · rw [if_neg h3]
        refine ⟨by decide, ?_, ?_, fun _ _ => rfl⟩
        · intro h6t
          exact absurd h6t h6
        · intro h3t
          exact absurd h3t h3

/-- C5: seed normalization in generateBaseColors yields, for every
input whose cleaned form is a valid 6- or 3-hex-digit sequence, a
string matching the hash-six-uppercase-hex-digit shape (6-digit forms
kept verbatim, 3-digit forms expanded digit by digit), and for every
other input — including an absent one — the default seed; the function
is total, so it never raises. -/
theorem c5_seed_normalization :
    ∀ raw : Option String,
      isSeedPattern (seedOf raw) = true
      ∧ (∀ s, raw = some s →
          (isHex6 (cleanedOf s) = true → seedOf raw = String.mk ('#' :: cleanedOf s))
          ∧ (isHex3 (cleanedOf s) = true → seedOf raw = String.mk ('#' :: expand3 (cleanedOf s)))
          ∧ (isHex6 (cleanedOf s) = false → isHex3 (cleanedOf s) = false →
              seedOf raw = "#3B82F6"))
      ∧ (raw = none → seedOf raw = "#3B82F6") := by
  intro raw
  cases raw with
  | none => exact ⟨by decide, fun s hs => Option.noConfusion hs, fun _ => rfl⟩
  | some s =>
    refine ⟨(c5_some s).1, ?_, fun h => Option.noConfusion h⟩
    intro s' hs'
    injection hs' with h
    subst h
    exact ⟨(c5_some s).2.1, (c5_some s).2.2.1, (c5_some s).2.2.2⟩

/-- Witness for C5: a padded lowercase 6-digit seed normalizes to the
uppercase hash form, an invalid seed and an absent seed both yield the
default. -/
theorem c5_witness :
    isSeedPattern (seedOf (some " #a1b2c3 ")) = true
    ∧ seedOf (some " #a1b2c3 ") = "#A1B2C3"
    ∧ seedOf (some "xyz") = "#3B82F6"
    ∧ seedOf none = "#3B82F6" := by
  have h := c5_seed_normalization (some " #a1b2c3 ")
  have h2 := c5_seed_normalization (some "xyz")
  have h3 := c5_seed_normalization none
  refine ⟨h.1, ?_, ?_, h3.2.2 rfl⟩
  · rw [(h.2.1 " #a1b2c3 " rfl).1 (by decide)]
    decide
  · exact (h2.2.1 "xyz" rfl).2.2 (by decide) (by decide)

/-- C2 counterexample: in the current parallel orchestrator, a
dark-mode navigation failure with a healthy light mode rejects the
whole request — no palette with fallback dark arrays is returned, so a
failure in one mode does block the request. -/
theorem c2_counterexample :
    (generateRadixPaletteParallel envDarkNavFails).1 = .error .sessionUnavailable := rfl

/-- C2 (amended): in the legacy per-mode extractor, a failed session
acquisition for the dark mode degrades exactly the dark arrays to the
full fallback ramps of each family, while the light arrays are exactly
those computed from the light environment alone — and the legacy
orchestrator is a total function, so the request itself still
succeeds.  The current parallel orchestrator instead rejects the whole
request when either navigation fails. -/
theorem c2_amended_mode_isolation :
    ∀ (lightEnv darkEnv : Legacy.ModeEnv), darkEnv.navOk = false →
      (Legacy.generateRadixPalette lightEnv darkEnv).accent.darkSteps
          = Legacy.generateFallbackAccentColors
      ∧ (Legacy.generateRadixPalette lightEnv darkEnv).gray.darkSteps
          = Legacy.generateFallbackGrayColors
      ∧ (Legacy.generateRadixPalette lightEnv darkEnv).accent.lightSteps
          = (Legacy.extractColorsForMode lightEnv).accent
      ∧ (Legacy.generateRadixPalette lightEnv darkEnv).gray.lightSteps
          = (Legacy.extractColorsForMode lightEnv).gray := by
  intro lightEnv darkEnv hnav
  have hdark : Legacy.extractColorsForMode darkEnv
      = ⟨Legacy.generateFallbackAccentColors, Legacy.generateFallbackGrayColors⟩ := by
    rw [Legacy.extractColorsForMode, hnav]
    rfl
  refine ⟨?_, ?_, rfl, rfl⟩
  · show (Legacy.extractColorsForMode darkEnv).accent = _
    rw [hdark]
  · show (Legacy.extractColorsForMode darkEnv).gray = _
    rw [hdark]

/-- Witness for the amended C2 at concrete environments: a live light
mode and a dark mode whose acquisition fails. -/
theorem c2_witness :
    (Legacy.generateRadixPalette legacyLiveMode legacyNavFailMode).accent.darkSteps
        = Legacy.generateFallbackAccentColors
    ∧ (Legacy.generateRadixPalette legacyLiveMode legacyNavFailMode).accent.lightSteps
        = (Legacy.extractColorsForMode legacyLiveMode).accent := by
  have h := c2_amended_mode_isolation legacyLiveMode legacyNavFailMode rfl
  exact ⟨h.1, h.2.2.1⟩

/-- C8 counterexample: with the keep-warm policy off, a request whose
dark navigation fails rejects after closing both contexts but never
closes the browser process — the failure exit path does not release
the process. -/
theorem c8_counterexample :
    (PaletteService.generatePalette envC8 false "#3B82F6" .analogous none).1
        = .error .sessionUnavailable
    ∧ ResourceEvent.browserClose ∉
        (PaletteService.generatePalette envC8 false "#3B82F6" .analogous none).2 := by
  refine ⟨rfl, ?_⟩
  decide

/-- C8 (amended): both per-mode browsing contexts are closed on every
exit path of the parallel orchestrator (the finally block); the
browser process is closed exactly on the successful path when the
keep-warm policy is off — when the extraction rejects, the service
propagates the failure without running its shutdown step, leaving the
process open. -/
theorem c8_amended_resource_release :
    ∀ (env : Env) (keepWarm : Bool) (hex : String) (scheme : Scheme) (harm : Option Bool),
      ResourceEvent.ctxCloseLight ∈ (PaletteService.generatePalette env keepWarm hex scheme harm).2
      ∧ ResourceEvent.ctxCloseDark ∈ (PaletteService.generatePalette env keepWarm hex scheme harm).2
      ∧ ((PaletteService.generatePalette env keepWarm hex scheme harm).1.isOk = true →
          keepWarm = false →
          ResourceEvent.browserClose ∈ (PaletteService.generatePalette env keepWarm hex scheme harm).2)
      ∧ ((PaletteService.generatePalette env keepWarm hex scheme harm).1.isOk = false →
          ResourceEvent.browserClose ∉ (PaletteService.generatePalette env keepWarm hex scheme harm).2) := by
  intro env kw hex scheme harm
  by_cases hnav : (env.light.navOk && env.dark.navOk) = true
  · have hgen : generateRadixPaletteParallel env
        = (.ok (assembleScales
            (extractColorsFromSwatchesOn env.light.count env.light.attemptsFor)
            (extractColorsFromSwatchesOn env.dark.count env.dark.attemptsFor)),
           [.ctxCloseLight, .ctxCloseDark]) := by
      rw [generateRadixPaletteParallel, if_pos hnav]
    by_cases hk : kw = true
    · simp only [PaletteService.generatePalette, hgen, if_pos hk]
      refine ⟨by simp, by simp, ?_, ?_⟩
      · intro _ hkf
        exact absurd (hkf.symm.trans hk) (by decide)
      · intro hok
        simp [Except.isOk, Except.toBool] at hok
    · simp only [PaletteService.generatePalette, hgen, if_neg hk]
      refine ⟨by simp, by simp, ?_, ?_⟩
      · intro _ _
        simp
      · intro hok
        simp [Except.isOk, Except.toBool] at hok
  · have hgen : generateRadixPaletteParallel env
        = (.error .sessionUnavailable, [.ctxCloseLight, .ctxCloseDark]) := by
      rw [generateRadixPaletteParallel, if_neg hnav]
    simp only [PaletteService.generatePalette, hgen]
    refine ⟨by simp, by simp, ?_, ?_⟩
    · intro hok
      simp [Except.isOk, Except.toBool] at hok
    · intro _
      decide

/-- Witness for the amended C8 at concrete inputs: a successful
request with keep-warm off closes both contexts and the browser. -/
theorem c8_witness :
    ResourceEvent.ctxCloseLight ∈ (PaletteService.generatePalette envBothNavOk false "#3B82F6" .analogous none).2
    ∧ ResourceEvent.browserClose ∈ (PaletteService.generatePalette envBothNavOk false "#3B82F6" .analogous none).2 := by
  have h := c8_amended_resource_release envBothNavOk false "#3B82F6" .analogous none
  exact ⟨h.1, h.2.2.1 rfl rfl⟩

set_option maxRecDepth 100000 in
/-- C3 counterexample: no fixed base hue makes the active accent
fallback generator match the claimed formulas — already its first step
(hue 220, saturation 90, lightness 97) differs from the claimed first
step (saturation 27, lightness 95) at every hue. -/
theorem c3_counterexample : ¬ c3ClaimHolds := by
  rintro ⟨hb, hall⟩
  have h1 := hall 1 le_rfl (by omega)
  rw [hslToHex_mod] at h1
  have key : ∀ m, m < 360 →
      ¬ (generateFallbackAccentColors.getD 0 ""
          = hslToHex ⟨m, c3SpecSaturation 1, c3SpecLightness 1⟩) := by decide
  exact key (hb % 360) (Nat.mod_lt hb (by omega)) h1

/-- C3 (amended): the accent fallback generator of the active parallel
orchestrator produces, at 0-based position k, the hex encoding of hue
220, saturation 90, lightness 97 - 7 k clamped to [7, 97]; the legacy
accent fallback generator realizes the claimed formulas with base hue
217, claimed lightness (95 - 8 k for the first six steps, 80 - 12 per
further step, clamped to [5, 95]) and saturation 91 at step 9,
otherwise 90 minus 8 per step of distance from step 9, floored at
10. -/
theorem c3_amended_fallback_formulas :
    ∀ k, k < 12 →
      generateFallbackAccentColors.getD k ""
          = hslToHex ⟨220, 90, max 7 (min 97 (97 - k * 7))⟩
      ∧ Legacy.generateFallbackAccentColors.getD k ""
          = hslToHex ⟨217,
              if k + 1 = 9 then 91 else max 10 (90 - Nat.dist (k + 1) 9 * 8),
              max 5 (min 95 (if k + 1 ≤ 6 then 95 - k * 8 else 80 - (k - 6) * 12))⟩ := by
  decide

/-- Witness for the amended C3 at position 0. -/
theorem c3_witness :
    generateFallbackAccentColors.getD 0 ""
        = hslToHex ⟨220, 90, max 7 (min 97 (97 - 0 * 7))⟩
    ∧ Legacy.generateFallbackAccentColors.getD 0 ""
        = hslToHex ⟨217,
            if 0 + 1 = 9 then 91 else max 10 (90 - Nat.dist (0 + 1) 9 * 8),
            max 5 (min 95 (if 0 + 1 ≤ 6 then 95 - 0 * 8 else 80 - (0 - 6) * 12))⟩ :=
  c3_amended_fallback_formulas 0 (by decide)

/-- C10: the legacy per-swatch validator classifies pure black and pure
white as invalid although both match the six-hex-digit shape, so a
swatch whose dialog always reads pure black exhausts its three
attempts, the retry protocol returns no value, and that swatch's
position receives the fallback value instead of the read value. -/
theorem c10_black_white_rejected :
    Legacy.isValidHex "#000000" = false
    ∧ Legacy.isValidHex "#FFFFFF" = false
    ∧ hexSixCI (removeFirstHash "#000000".data) = true
    ∧ hexSixCI (removeFirstHash "#FFFFFF".data) = true
    ∧ (∀ (count : Nat) (af : Nat → Nat → AttemptOutcome) (j : Nat),
        j < min 12 count →
        (∀ k, 1 ≤ k → k ≤ 3 → af j k = .read "#000000") →
          Legacy.extractColorFromSwatchWithRetry (af j) = none
          ∧ (Legacy.extractColorRetryGo (af j) 3 1).attemptsUsed = 3
          ∧ (Legacy.extractColorsFromSwatches count af).accent.getD j ""
              = Legacy.fallbackAccentAt j) := by
  refine ⟨by decide, by decide, by decide, by decide, ?_⟩
  intro count af j hj hread
  have hvalid : ∀ k, 1 ≤ k → k ≤ 3 → legacyValidAttempt (af j k) = false := by
    intro k h1 h3
    rw [hread k h1 h3]
    decide
  have hx := legacyRetry_exhaust (af j) 1 le_rfl (by omega) hvalid
  have hres : Legacy.extractColorFromSwatchWithRetry (af j) = none := hx.1
  refine ⟨hres, hx.2, ?_⟩
  show ((List.range (min 12 count)).map (fun i =>
      match Legacy.extractColorFromSwatchWithRetry (af i) with
      | some color => if Legacy.isValidHex color then color else Legacy.fallbackAccentAt i
      | none => Legacy.fallbackAccentAt i)).getD j "" = Legacy.fallbackAccentAt j
  rw [getD_range_map, if_pos hj, hres]

/-- Witness for C10: every swatch reading pure black gives the
fallback value at accent position 0. -/
theorem c10_witness :
    Legacy.isValidHex "#000000" = false
    ∧ Legacy.extractColorFromSwatchWithRetry (blackReads 0) = none
    ∧ (Legacy.extractColorsFromSwatches 24 blackReads).accent.getD 0 ""
        = Legacy.fallbackAccentAt 0 := by
  have h := c10_black_white_rejected
  have h5 := h.2.2.2.2 24 blackReads 0 (by decide) (fun k _ _ => rfl)
  exact ⟨h.1, h5.1, h5.2.2⟩
